import Mathlib

/-!
Verification of the Celervus conversational query pipeline.

This file gives a shallow embedding, in Lean 4, of the client-side core of the
repository: the section parser of `BotMessageContent` (which splits a streamed
bot reply into a "thinking" region and an "answer" region by line-oriented
prefix matching), the conversation state updates of `ChatWidget.handleSend`
(the submit guard and the chunk / completion / error callbacks), and the
callback discipline of `streamQuery` in `services/api.js`.  JavaScript strings
are embedded as `List Char` so that every definition evaluates by kernel
reduction; `trimStr`, `splitLines` and prefix matching mirror `String.trim`,
`split('\n')` and `startsWith` of the source.  Theorems below settle the
testable properties of the design document against these definitions.
-/

namespace Celervus

/-- A JavaScript string, embedded as its sequence of characters. -/
abbrev Str := List Char

/-- JavaScript `String.prototype.trim`: remove leading and trailing
whitespace. -/
def trimStr (s : Str) : Str :=
  ((s.dropWhile Char.isWhitespace).reverse.dropWhile Char.isWhitespace).reverse

/-- JavaScript `split('\n')`: cut the string at every newline, keeping empty
pieces (so the empty string yields one empty piece). -/
def splitLines (s : Str) : List Str :=
  match s with
  | [] => [[]]
  | c :: cs =>
      if c = '\n' then [] :: splitLines cs
      else
        match splitLines cs with
        | [] => [[c]]
        | g :: gs => (c :: g) :: gs

/-! Section parser embedding: the `useMemo` body of `BotMessageContent` in the
message-list component.  The parser splits the accumulated text on newlines,
drops blank lines, and walks the remaining lines, classifying each into
`thinking` or `answer`.  A line whose trimmed form starts with one of the
`answerPrefixes` (checked in order, first match wins) switches the walk into
answer mode and contributes the non-blank remainder after the prefix.  If no
marker was ever found but thinking lines were collected, the whole text is
reinterpreted as an unstructured answer. -/

/-- The fixed, ordered list of recognized answer-start prefixes
(`answerPrefixes` in the source). -/
def answerPrefixes : List Str :=
  ["Answer:".data, "Final answer:".data, "Partial answer:".data]

/-- The inner prefix loop: try each prefix in order against the trimmed line,
returning the first that matches (`for (const prefix of answerPrefixes)` with
`break` on the first `startsWith` hit). -/
def findMarker : List Str → Str → Option Str
  | [], _ => none
  | p :: ps, t => if p.isPrefixOf t then some p else findMarker ps t

/-- Loop state of the section-splitting walk: the two accumulated regions plus
the `answerStarted` and `foundAnswerMarker` flags. -/
structure ParseState where
  thinking : List Str
  answer : List Str
  answerStarted : Bool
  foundAnswerMarker : Bool
deriving DecidableEq, Repr

/-- Initial loop state: empty regions, both flags false. -/
def initState : ParseState := ⟨[], [], false, false⟩

/-- The body of one loop iteration, split on the marker-match result: on a
match the two flags are set and the trimmed remainder after the prefix
(`trimmedLine.substring(prefix.length).trim()`) is pushed to `answer` when it
is non-empty; otherwise the trimmed line goes to `answer` if answer mode has
started, else to `thinking`. -/
def markerStep (st : ParseState) (t : Str) : Option Str → ParseState
  | some p =>
      if trimStr (t.drop p.length) ≠ [] then
        { st with
          answerStarted := true
          foundAnswerMarker := true
          answer := st.answer ++ [trimStr (t.drop p.length)] }
      else
        { st with answerStarted := true, foundAnswerMarker := true }
  | none =>
      if st.answerStarted then { st with answer := st.answer ++ [t] }
      else { st with thinking := st.thinking ++ [t] }

/-- One iteration of the `for (const line of lines)` loop.  The prefix loop
runs on every line, regardless of `answerStarted`. -/
def processLine (st : ParseState) (line : Str) : ParseState :=
  markerStep st (trimStr line) (findMarker answerPrefixes (trimStr line))

/-- `accumulatedText.split('\n').filter(line => line.trim() !== '')`. -/
def nonBlankLines (s : Str) : List Str :=
  (splitLines s).filter (fun l => trimStr l ≠ [])

/-- Result of the section parser: the destructured value of the `useMemo`
in `BotMessageContent`. -/
structure ParseResult where
  thinkingLines : List Str
  answerLines : List Str
  isStructured : Bool
deriving DecidableEq, Repr

/-- The return logic after the line walk: when no answer marker was found but
thinking lines exist, the whole split is reinterpreted as an unstructured
answer; otherwise the two regions are returned with
`structured = foundAnswerPrefix || thinking.length > 0`. -/
def sectionize (st : ParseState) : ParseResult :=
  if ¬ st.foundAnswerMarker ∧ st.thinking ≠ [] then ⟨[], st.thinking, false⟩
  else ⟨st.thinking, st.answer, st.foundAnswerMarker || !st.thinking.isEmpty⟩

/-- The section parser: the body of the `useMemo` in `BotMessageContent`.
Empty text short-circuits to the empty result; otherwise the line walk runs
and its final state is post-processed by `sectionize`. -/
def parseSections (s : Str) : ParseResult :=
  if s = [] then ⟨[], [], false⟩
  else sectionize ((nonBlankLines s).foldl processLine initState)

/-! Stream transport embedding: `streamQuery` in `services/api.js`.
`streamQuery` issues one fetch, throws on a non-ok status or a null body,
then pulls chunks in a loop, calling `onChunk` for each; when the reader
reports `done` it calls `onComplete`.  Any throw (bad status, null body, or a
read failure mid-stream) lands in the single `catch`, which calls `onError`.
We model one run as the possible outcomes of the underlying transport and
record the sequence of callback invocations it produces (the consumer
callbacks are assumed not to throw). -/

/-- A callback invocation made by `streamQuery`. -/
inductive StreamEvent where
  | chunk (text : Str)
  | complete
  | error (msg : Str)
deriving DecidableEq, Repr

/-- Outcome of the underlying fetch/read transport for one run: a non-success
HTTP status, a null response body, a read failure after some chunks were
delivered, or a normal end-of-data after all chunks. -/
inductive StreamOutcome where
  | badStatus (code : Nat)
  | noBody
  | netError (delivered : List Str) (msg : Str)
  | success (chunks : List Str)
deriving DecidableEq, Repr

/-- The sequence of callback invocations `streamQuery` performs for a given
transport outcome.  A bad status throws `HTTP error! status: <code>` before
any chunk; a null body throws `Response body is null`; a mid-stream read
failure is caught after the delivered chunks; end-of-data breaks the loop and
calls `onComplete`. -/
def streamQuery : StreamOutcome → List StreamEvent
  | .badStatus code => [.error ("HTTP error! status: ".data ++ (Nat.repr code).data)]
  | .noBody => [.error "Response body is null".data]
  | .netError delivered msg => delivered.map .chunk ++ [.error msg]
  | .success chunks => chunks.map .chunk ++ [.complete]

/-! Conversation store embedding: the `ChatWidget` component.  Messages are
plain records `{ id, sender, text, error }` (the JS `error` flag is
absent/falsy unless set, modelled as a `Bool`).  `handleSend` rejects input
that trims to empty or a send while `isStreaming`; otherwise it appends the
user message and the empty bot placeholder in one state update and folds the
stream callbacks over the state.  The chunk callback accumulates into the
closure variable `accumulatedBotResponse` and overwrites the text of the last
message when that message's sender is `'bot'`; the error callback overwrites
the last bot message with `Sorry, I encountered an error: <msg>` and sets its
error flag (or appends a fresh error message when the last message is not a
bot message); the completion callback only clears `isStreaming`. -/

/-- A chat message as kept in the `messages` state of `ChatWidget`. -/
structure Message where
  id : Nat
  sender : Str
  text : Str
  error : Bool
deriving DecidableEq, Repr

/-- The `ChatWidget` state relevant to a turn. -/
structure ChatState where
  messages : List Message
  inputValue : Str
  isStreaming : Bool
deriving DecidableEq, Repr

/-- The branch of the chunk callback on the last message: replace the last
message's text with the accumulated response when the last message exists and
its sender is `'bot'`, otherwise leave the list alone. -/
def chunkLastStep (acc : Str) (ms : List Message) : Option Message → List Message
  | none => ms
  | some m =>
      if m.sender = "bot".data then ms.dropLast ++ [{ m with text := acc }]
      else ms

/-- The chunk callback's `setMessages` updater. -/
def onChunkUpdate (accumulated : Str) (ms : List Message) : List Message :=
  chunkLastStep accumulated ms ms.getLast?

/-- The branch of the error callback on the last message: overwrite the last
bot message with the user-facing error text and set its error flag; when the
last message is missing or is not a bot message, push a fresh error message. -/
def errorLastStep (errMsg : Str) (now : Nat) (ms : List Message) : Option Message → List Message
  | some m =>
      if m.sender = "bot".data then
        ms.dropLast
          ++ [{ m with text := "Sorry, I encountered an error: ".data ++ errMsg, error := true }]
      else ms ++ [⟨now, "bot".data, "Error: ".data ++ errMsg, true⟩]
  | none => ms ++ [⟨now, "bot".data, "Error: ".data ++ errMsg, true⟩]

/-- The error callback's `setMessages` updater. -/
def onErrorUpdate (errMsg : Str) (now : Nat) (ms : List Message) : List Message :=
  errorLastStep errMsg now ms ms.getLast?

/-- Apply one stream callback to the widget state.  The `Str` component is
the closure variable `accumulatedBotResponse`. -/
def applyEvent (now : Nat) (st : ChatState × Str) (e : StreamEvent) : ChatState × Str :=
  match e with
  | .chunk c =>
      ({ st.1 with messages := onChunkUpdate (st.2 ++ c) st.1.messages }, st.2 ++ c)
  | .complete => ({ st.1 with isStreaming := false }, st.2)
  | .error msg =>
      ({ st.1 with messages := onErrorUpdate msg now st.1.messages, isStreaming := false }, st.2)

/-- The accepted-submit state update of `handleSend`: append the user message
and the empty bot placeholder in one update, clear the input, mark streaming. -/
def submitAccept (st : ChatState) (now : Nat) : ChatState :=
  { messages := st.messages ++
      [⟨now, "user".data, trimStr st.inputValue, false⟩, ⟨now + 1, "bot".data, [], false⟩]
    inputValue := []
    isStreaming := true }

/-- `handleSend` for one turn against a transport outcome: reject (and change
nothing, performing no network call) when the input trims to empty or a
stream is already open; otherwise append both messages, then fold the
`streamQuery` callbacks over the state starting from an empty accumulated
response. -/
def handleSend (st : ChatState) (now : Nat) (o : StreamOutcome) : ChatState :=
  if trimStr st.inputValue = [] ∨ st.isStreaming then st
  else ((streamQuery o).foldl (applyEvent now) (submitAccept st now, [])).1

/-- The text of the last message of a state, when one exists. -/
def lastText (st : ChatState) : Option Str :=
  st.messages.getLast?.map Message.text

/-- The error flag of the last message of a state, when one exists. -/
def lastError (st : ChatState) : Option Bool :=
  st.messages.getLast?.map Message.error

/-- Whether a non-blank line contributes a line to one of the two regions:
every line does, except a marker line whose remainder after the stripped
prefix is blank (such a line only performs the mode switch). -/
def contributes (l : Str) : Bool :=
  match findMarker answerPrefixes (trimStr l) with
  | some p => trimStr ((trimStr l).drop p.length) ≠ []
  | none => true

/-- The concatenation of a list of chunks, in arrival order, exactly as the
closure variable `accumulatedBotResponse` accumulates them. -/
def concatChunks (cs : List Str) : Str :=
  cs.foldl (fun a c => a ++ c) []

/-! Helper lemmas about the parser's line walk. -/

lemma processLine_marker_ne (st : ParseState) (l p : Str)
    (hm : findMarker answerPrefixes (trimStr l) = some p)
    (hc : trimStr ((trimStr l).drop p.length) ≠ []) :
    processLine st l
      = { st with
            answerStarted := true
            foundAnswerMarker := true
            answer := st.answer ++ [trimStr ((trimStr l).drop p.length)] } := by
  unfold processLine
  rw [hm]
  simp only [markerStep]
  rw [if_pos hc]

lemma processLine_marker_blank (st : ParseState) (l p : Str)
    (hm : findMarker answerPrefixes (trimStr l) = some p)
    (hc : trimStr ((trimStr l).drop p.length) = []) :
    processLine st l = { st with answerStarted := true, foundAnswerMarker := true } := by
  unfold processLine
  rw [hm]
  simp only [markerStep]
  rw [if_neg (by simp [hc])]

lemma processLine_no_marker_started (st : ParseState) (l : Str)
    (hm : findMarker answerPrefixes (trimStr l) = none)
    (hs : st.answerStarted = true) :
    processLine st l = { st with answer := st.answer ++ [trimStr l] } := by
  unfold processLine
  rw [hm]
  simp only [markerStep]
  rw [if_pos (by simp [hs])]

lemma processLine_no_marker_thinking (st : ParseState) (l : Str)
    (hm : findMarker answerPrefixes (trimStr l) = none)
    (hs : st.answerStarted = false) :
    processLine st l = { st with thinking := st.thinking ++ [trimStr l] } := by
  unfold processLine
  rw [hm]
  simp only [markerStep]
  rw [if_neg (by simp [hs])]

lemma foldl_no_marker (lines : List Str)
    (h : ∀ l ∈ lines, findMarker answerPrefixes (trimStr l) = none) :
    ∀ th : List Str,
      lines.foldl processLine ⟨th, [], false, false⟩
        = ⟨th ++ lines.map trimStr, [], false, false⟩ := by
  induction lines with
  | nil => intro th; simp
  | cons l ls ih =>
      intro th
      have hl : findMarker answerPrefixes (trimStr l) = none := h l (by simp)
      have hls : ∀ x ∈ ls, findMarker answerPrefixes (trimStr x) = none := by
        intro x hx; exact h x (by simp [hx])
      rw [List.foldl_cons, processLine_no_marker_thinking _ _ hl rfl]
      rw [ih hls (th ++ [trimStr l])]
      simp

lemma processLine_found_mono (st : ParseState) (l : Str)
    (h : st.foundAnswerMarker = true) :
    (processLine st l).foundAnswerMarker = true := by
  cases hm : findMarker answerPrefixes (trimStr l) with
  | some p =>
      by_cases hc : trimStr ((trimStr l).drop p.length) = []
      · rw [processLine_marker_blank st l p hm hc]
      · rw [processLine_marker_ne st l p hm hc]
  | none =>
      cases hs : st.answerStarted with
      | true => rw [processLine_no_marker_started st l hm hs]; exact h
      | false => rw [processLine_no_marker_thinking st l hm hs]; exact h

lemma foldl_found_mono (lines : List Str) :
    ∀ st : ParseState, st.foundAnswerMarker = true →
      (lines.foldl processLine st).foundAnswerMarker = true := by
  induction lines with
  | nil => intro st h; simpa using h
  | cons l ls ih =>
      intro st h
      rw [List.foldl_cons]
      exact ih _ (processLine_found_mono st l h)

lemma foldl_unfound_answer (lines : List Str) :
    ∀ st : ParseState, st.answerStarted = false →
      (lines.foldl processLine st).foundAnswerMarker = false →
      (lines.foldl processLine st).answer = st.answer := by
  induction lines with
  | nil => intro st _ _; simp
  | cons l ls ih =>
      intro st hstart hfound
      rw [List.foldl_cons] at hfound ⊢
      cases hm : findMarker answerPrefixes (trimStr l) with
      | some p =>
          exfalso
          have hstep : (processLine st l).foundAnswerMarker = true := by
            by_cases hc : trimStr ((trimStr l).drop p.length) = []
            · rw [processLine_marker_blank st l p hm hc]
            · rw [processLine_marker_ne st l p hm hc]
          rw [foldl_found_mono ls _ hstep] at hfound
          exact Bool.noConfusion hfound
      | none =>
          rw [processLine_no_marker_thinking st l hm hstart] at hfound ⊢
          exact ih _ hstart hfound

lemma foldl_region_count (lines : List Str) :
    ∀ st : ParseState,
      (lines.foldl processLine st).thinking.length
        + (lines.foldl processLine st).answer.length
        = st.thinking.length + st.answer.length + lines.countP contributes := by
  induction lines with
  | nil => intro st; simp
  | cons l ls ih =>
      intro st
      rw [List.foldl_cons, List.countP_cons, ih (processLine st l)]
      cases hm : findMarker answerPrefixes (trimStr l) with
      | some p =>
          by_cases hc : trimStr ((trimStr l).drop p.length) = []
          · have hcb : contributes l = false := by unfold contributes; rw [hm]; simp [hc]
            rw [processLine_marker_blank st l p hm hc, hcb]
            simp
          · have hcb : contributes l = true := by unfold contributes; rw [hm]; simp [hc]
            rw [processLine_marker_ne st l p hm hc, hcb]
            simp
            omega
      | none =>
          have hcb : contributes l = true := by unfold contributes; rw [hm]
          cases hs : st.answerStarted with
          | true =>
              rw [processLine_no_marker_started st l hm hs, hcb]
              simp
              omega
          | false =>
              rw [processLine_no_marker_thinking st l hm hs, hcb]
              simp
              omega

/-! Helper lemmas about the conversation store updates. -/

lemma onChunkUpdate_concat (ms0 : List Message) (m : Message) (acc : Str)
    (h : m.sender = "bot".data) :
    onChunkUpdate acc (ms0 ++ [m]) = ms0 ++ [{ m with text := acc }] := by
  unfold onChunkUpdate
  rw [List.getLast?_concat]
  simp only [chunkLastStep]
  rw [if_pos h, List.dropLast_concat]

lemma onChunkUpdate_concat_other (ms0 : List Message) (m : Message)
    (acc : Str) (h : m.sender ≠ "bot".data) :
    onChunkUpdate acc (ms0 ++ [m]) = ms0 ++ [m] := by
  unfold onChunkUpdate
  rw [List.getLast?_concat]
  simp only [chunkLastStep]
  rw [if_neg h]

lemma onErrorUpdate_concat_bot (ms0 : List Message) (m : Message)
    (msg : Str) (now : Nat) (h : m.sender = "bot".data) :
    onErrorUpdate msg now (ms0 ++ [m])
      = ms0 ++ [{ m with
                  text := "Sorry, I encountered an error: ".data ++ msg
                  error := true }] := by
  unfold onErrorUpdate
  rw [List.getLast?_concat]
  simp only [errorLastStep]
  rw [if_pos h, List.dropLast_concat]

lemma onErrorUpdate_concat_other (ms0 : List Message) (m : Message)
    (msg : Str) (now : Nat) (h : m.sender ≠ "bot".data) :
    onErrorUpdate msg now (ms0 ++ [m])
      = (ms0 ++ [m]) ++ [⟨now, "bot".data, "Error: ".data ++ msg, true⟩] := by
  unfold onErrorUpdate
  rw [List.getLast?_concat]
  simp only [errorLastStep]
  rw [if_neg h]

lemma foldChunks (now : Nat) (cs : List Str) :
    ∀ (ms0 : List Message) (m : Message) (iv : Str) (istr : Bool) (a : Str),
      m.sender = "bot".data → m.text = a →
      (cs.map StreamEvent.chunk).foldl (applyEvent now) (⟨ms0 ++ [m], iv, istr⟩, a)
        = (⟨ms0 ++ [{ m with text := cs.foldl (fun b c => b ++ c) a }], iv, istr⟩,
           cs.foldl (fun b c => b ++ c) a) := by
  induction cs with
  | nil =>
      intro ms0 m iv istr a hb ht
      obtain ⟨mid, msender, mtext, merr⟩ := m
      simp only [Message.text] at ht
      subst ht
      simp
  | cons c cs' ih =>
      intro ms0 m iv istr a hb ht
      simp only [List.map_cons, List.foldl_cons, applyEvent]
      rw [onChunkUpdate_concat ms0 m (a ++ c) hb]
      exact ih ms0 { m with text := a ++ c } iv istr (a ++ c) hb rfl

lemma handleSend_accept (st : ChatState) (now : Nat) (o : StreamOutcome)
    (h1 : trimStr st.inputValue ≠ []) (h2 : st.isStreaming = false) :
    handleSend st now o
      = ((streamQuery o).foldl (applyEvent now)
          (⟨(st.messages ++ [⟨now, "user".data, trimStr st.inputValue, false⟩])
              ++ [⟨now + 1, "bot".data, [], false⟩], [], true⟩, [])).1 := by
  unfold handleSend
  rw [if_neg (by simp [h1, h2])]
  unfold submitAccept
  simp

lemma handleSend_success_eq (st : ChatState) (now : Nat) (cs : List Str)
    (h1 : trimStr st.inputValue ≠ []) (h2 : st.isStreaming = false) :
    handleSend st now (.success cs)
      = ⟨st.messages ++ [⟨now, "user".data, trimStr st.inputValue, false⟩,
          ⟨now + 1, "bot".data, concatChunks cs, false⟩], [], false⟩ := by
  rw [handleSend_accept st now _ h1 h2]
  simp only [streamQuery, List.foldl_append]
  rw [foldChunks now cs _ _ _ _ _ rfl rfl]
  simp only [List.foldl_cons, List.foldl_nil, applyEvent]
  simp [concatChunks]

lemma handleSend_netError_eq (st : ChatState) (now : Nat) (cs : List Str) (msg : Str)
    (h1 : trimStr st.inputValue ≠ []) (h2 : st.isStreaming = false) :
    handleSend st now (.netError cs msg)
      = ⟨st.messages ++ [⟨now, "user".data, trimStr st.inputValue, false⟩,
          ⟨now + 1, "bot".data, "Sorry, I encountered an error: ".data ++ msg, true⟩],
         [], false⟩ := by
  rw [handleSend_accept st now _ h1 h2]
  simp only [streamQuery, List.foldl_append]
  rw [foldChunks now cs _ _ _ _ _ rfl rfl]
  simp only [List.foldl_cons, List.foldl_nil, applyEvent]
  rw [onErrorUpdate_concat_bot _ _ _ _ rfl]
  simp

lemma handleSend_badStatus_eq (st : ChatState) (now : Nat) (code : Nat)
    (h1 : trimStr st.inputValue ≠ []) (h2 : st.isStreaming = false) :
    handleSend st now (.badStatus code)
      = ⟨st.messages ++ [⟨now, "user".data, trimStr st.inputValue, false⟩,
          ⟨now + 1, "bot".data,
            "Sorry, I encountered an error: ".data
              ++ ("HTTP error! status: ".data ++ (Nat.repr code).data), true⟩],
         [], false⟩ := by
  rw [handleSend_accept st now _ h1 h2]
  simp only [streamQuery, List.foldl_cons, List.foldl_nil, applyEvent]
  rw [onErrorUpdate_concat_bot _ _ _ _ rfl]
  simp

lemma handleSend_noBody_eq (st : ChatState) (now : Nat)
    (h1 : trimStr st.inputValue ≠ []) (h2 : st.isStreaming = false) :
    handleSend st now .noBody
      = ⟨st.messages ++ [⟨now, "user".data, trimStr st.inputValue, false⟩,
          ⟨now + 1, "bot".data,
            "Sorry, I encountered an error: ".data ++ "Response body is null".data, true⟩],
         [], false⟩ := by
  rw [handleSend_accept st now _ h1 h2]
  simp only [streamQuery, List.foldl_cons, List.foldl_nil, applyEvent]
  rw [onErrorUpdate_concat_bot _ _ _ _ rfl]
  simp

lemma get?_dropLast_concat {α : Type} (x : α) :
    ∀ (xs : List α) (i : Nat), i + 1 < xs.length →
      (xs.dropLast ++ [x]).get? i = xs.get? i := by
  intro xs
  induction xs with
  | nil => intro i h; simp at h
  | cons a as ih =>
      intro i h
      cases as with
      | nil => simp at h
      | cons b bs =>
          cases i with
          | zero => simp
          | succ j =>
              have hj : j + 1 < (b :: bs).length := by
                simpa [Nat.succ_lt_succ_iff] using h
              have := ih j hj
              simpa using this

lemma getLast?_ne_nil {α : Type} (xs : List α) (m : α)
    (h : xs.getLast? = some m) : xs ≠ [] := by
  intro hx
  subst hx
  simp at h

/-- Whether a `streamQuery` callback invocation is an `onChunk` call. -/
def isChunkEvent : StreamEvent → Bool
  | .chunk _ => true
  | _ => false

/-- Whether a `streamQuery` callback invocation is an `onError` call. -/
def isErrorEvent : StreamEvent → Bool
  | .error _ => true
  | _ => false

/-- Whether a `streamQuery` callback invocation is an `onComplete` call. -/
def isCompleteEvent : StreamEvent → Bool
  | .complete => true
  | _ => false

/-! Claims.  Each claim of the design document is settled by one theorem
below (with a closed witness instance when the theorem has hypotheses, and a
closed counterexample when the claim as stated fails on the code). -/

/-- C1 (corrected): when the transport delivers chunks and then errors, the
assistant message for the turn does end in the error state (`error := true`)
with a user-facing error detail in its text, but the accumulated raw text is
NOT preserved: the error callback of `ChatWidget.handleSend` overwrites the
message text with `Sorry, I encountered an error: <msg>`, discarding the
chunks already received. -/
theorem c1_error_replaces_partial_text
    (st : ChatState) (now : Nat) (cs : List Str) (msg : Str)
    (h1 : trimStr st.inputValue ≠ []) (h2 : st.isStreaming = false) :
    lastText (handleSend st now (.netError cs msg))
        = some ("Sorry, I encountered an error: ".data ++ msg)
      ∧ lastError (handleSend st now (.netError cs msg)) = some true
      ∧ (handleSend st now (.netError cs msg)).isStreaming = false := by
  rw [handleSend_netError_eq st now cs msg h1 h2]
  unfold lastText lastError
  have hsplit :
      st.messages ++ [⟨now, "user".data, trimStr st.inputValue, false⟩,
        ⟨now + 1, "bot".data, "Sorry, I encountered an error: ".data ++ msg, true⟩]
        = (st.messages ++ [⟨now, "user".data, trimStr st.inputValue, false⟩])
          ++ [⟨now + 1, "bot".data, "Sorry, I encountered an error: ".data ++ msg, true⟩] := by
    simp
  refine ⟨?_, ?_, rfl⟩
  · rw [hsplit, List.getLast?_concat]; rfl
  · rw [hsplit, List.getLast?_concat]; rfl

/-- C1 witness: a concrete accepted turn whose stream errors after one
chunk. -/
theorem c1_witness :
    lastText (handleSend ⟨[], "hi".data, false⟩ 0 (.netError ["partial".data] "boom".data))
        = some ("Sorry, I encountered an error: ".data ++ "boom".data)
      ∧ lastError (handleSend ⟨[], "hi".data, false⟩ 0 (.netError ["partial".data] "boom".data))
          = some true
      ∧ (handleSend ⟨[], "hi".data, false⟩ 0
          (.netError ["partial".data] "boom".data)).isStreaming = false :=
  c1_error_replaces_partial_text ⟨[], "hi".data, false⟩ 0 ["partial".data] "boom".data
    (by decide) rfl

/-- C1 counterexample: after one chunk `"partial"` and an error `"boom"`,
the resulting message text is the error string, not the chunk that was
received — the partial raw text is discarded, contradicting the claim that
it is still surfaced. -/
theorem c1_counterexample :
    lastText (handleSend ⟨[], "hi".data, false⟩ 0 (.netError ["partial".data] "boom".data))
        = some "Sorry, I encountered an error: boom".data
      ∧ lastText (handleSend ⟨[], "hi".data, false⟩ 0 (.netError ["partial".data] "boom".data))
          ≠ some "partial".data := by
  decide

/-- C2 (corrected): the chunk callback has no terminal-state guard.  Applied
to a message list whose last message is a bot message, it overwrites that
message's text with the accumulated response regardless of the message's
error flag (so a chunk arriving after `fail` is NOT a no-op); the only guard
in the code is the `sender === 'bot'` check, under which a non-bot last
message is left untouched. -/
theorem c2_no_terminal_guard (acc : Str) (ms0 : List Message) (m : Message) :
    (m.sender = "bot".data →
      onChunkUpdate acc (ms0 ++ [m]) = ms0 ++ [{ m with text := acc }])
    ∧ (m.sender ≠ "bot".data → onChunkUpdate acc (ms0 ++ [m]) = ms0 ++ [m]) :=
  ⟨fun h => onChunkUpdate_concat ms0 m acc h,
   fun h => onChunkUpdate_concat_other ms0 m acc h⟩

/-- C2 witness: overwriting a failed (error-flagged) bot message with a late
chunk. -/
theorem c2_witness :
    onChunkUpdate "late".data
        ([⟨0, "user".data, "hi".data, false⟩] ++ [⟨1, "bot".data, "oops".data, true⟩])
      = [⟨0, "user".data, "hi".data, false⟩]
          ++ [{ (⟨1, "bot".data, "oops".data, true⟩ : Message) with text := "late".data }] :=
  (c2_no_terminal_guard "late".data [⟨0, "user".data, "hi".data, false⟩]
    ⟨1, "bot".data, "oops".data, true⟩).1 rfl

/-- C2 counterexample: after the error callback puts the last bot message in
its terminal failed state, a subsequent chunk callback still changes that
message's text — it is not a no-op, so the claimed terminal-immutability
guard does not exist in the code. -/
theorem c2_counterexample :
    (onErrorUpdate "boom".data 2
        [⟨0, "user".data, "hi".data, false⟩,
         ⟨1, "bot".data, "partial".data, false⟩]).getLast?.map Message.error = some true
      ∧ (onChunkUpdate "late".data (onErrorUpdate "boom".data 2
          [⟨0, "user".data, "hi".data, false⟩,
           ⟨1, "bot".data, "partial".data, false⟩])).getLast?.map Message.text
          = some "late".data
      ∧ onChunkUpdate "late".data (onErrorUpdate "boom".data 2
          [⟨0, "user".data, "hi".data, false⟩,
           ⟨1, "bot".data, "partial".data, false⟩])
          ≠ onErrorUpdate "boom".data 2
              [⟨0, "user".data, "hi".data, false⟩,
               ⟨1, "bot".data, "partial".data, false⟩] := by
  decide

/-- C3 (confirmed): the rendered text after a successful stream is a pure
function of the concatenation of the delivered chunks — the last message's
text equals `concatChunks cs` however the text was chunked, so re-parsing the
full accumulated text from scratch cannot depend on any intermediate state;
and the concrete chunked delivery of `"Thinking step A\n"`,
`"Partial answer: draft\n"`, `"more text"` parses, after all chunks, to the
answer lines `["draft", "more text"]`. -/
theorem c3_reparse_from_scratch :
    (∀ (st : ChatState) (now : Nat) (cs : List Str),
        trimStr st.inputValue ≠ [] → st.isStreaming = false →
        lastText (handleSend st now (.success cs)) = some (concatChunks cs))
    ∧ (parseSections (concatChunks
          ["Thinking step A\n".data, "Partial answer: draft\n".data,
           "more text".data])).answerLines
        = ["draft".data, "more text".data] := by
  constructor
  · intro st now cs h1 h2
    rw [handleSend_success_eq st now cs h1 h2]
    unfold lastText
    have hsplit :
        st.messages ++ [⟨now, "user".data, trimStr st.inputValue, false⟩,
          ⟨now + 1, "bot".data, concatChunks cs, false⟩]
          = (st.messages ++ [⟨now, "user".data, trimStr st.inputValue, false⟩])
            ++ [⟨now + 1, "bot".data, concatChunks cs, false⟩] := by
      simp
    rw [hsplit, List.getLast?_concat]; rfl
  · decide

/-- C3 witness: the scenario delivery, run through the whole widget model. -/
theorem c3_witness :
    lastText (handleSend ⟨[], "hi".data, false⟩ 0
        (.success ["Thinking step A\n".data, "Partial answer: draft\n".data,
          "more text".data]))
      = some (concatChunks ["Thinking step A\n".data, "Partial answer: draft\n".data,
          "more text".data]) :=
  c3_reparse_from_scratch.1 ⟨[], "hi".data, false⟩ 0
    ["Thinking step A\n".data, "Partial answer: draft\n".data, "more text".data]
    (by decide) rfl

/-- C4 (corrected): once the walk is in answer mode, a subsequent non-blank
line that matches no recognized prefix is appended (trimmed) to the answer
region; but a line that begins with a recognized prefix is matched AGAIN: the
prefix is stripped once more and only its non-blank remainder is appended —
prefix recognition is re-triggered on every later line, it is not a
once-only mode transition. -/
theorem c4_marker_restripped (pre : List Str) (l : Str)
    (h : (pre.foldl processLine initState).answerStarted = true) :
    ((pre ++ [l]).foldl processLine initState).answer
      = (pre.foldl processLine initState).answer
        ++ (match findMarker answerPrefixes (trimStr l) with
            | none => [trimStr l]
            | some p =>
                if trimStr ((trimStr l).drop p.length) ≠ []
                then [trimStr ((trimStr l).drop p.length)] else []) := by
  rw [List.foldl_append, List.foldl_cons, List.foldl_nil]
  cases hm : findMarker answerPrefixes (trimStr l) with
  | none =>
      rw [processLine_no_marker_started _ _ hm h]
  | some p =>
      by_cases hc : trimStr ((trimStr l).drop p.length) = []
      · rw [processLine_marker_blank _ _ p hm hc]
        simp [hc]
      · rw [processLine_marker_ne _ _ p hm hc]
        simp [hc]

/-- C4 witness: the second `Answer:` line is re-stripped, appending only its
remainder. -/
theorem c4_witness :
    ((["Answer: first".data] ++ ["Answer: second".data]).foldl processLine initState).answer
      = (["Answer: first".data].foldl processLine initState).answer
        ++ (match findMarker answerPrefixes (trimStr "Answer: second".data) with
            | none => [trimStr "Answer: second".data]
            | some p =>
                if trimStr ((trimStr "Answer: second".data).drop p.length) ≠ []
                then [trimStr ((trimStr "Answer: second".data).drop p.length)] else []) :=
  c4_marker_restripped ["Answer: first".data] "Answer: second".data (by decide)

/-- C4 counterexample: in `"Answer: first\nAnswer: second"` the second line
begins with the recognized prefix `Answer:` and comes after answer mode was
entered, yet it is not appended verbatim — the parser strips the prefix
again, producing `["first", "second"]`. -/
theorem c4_counterexample :
    (parseSections "Answer: first\nAnswer: second".data).answerLines
        = ["first".data, "second".data]
      ∧ "Answer: second".data
          ∉ (parseSections "Answer: first\nAnswer: second".data).answerLines
      ∧ List.isPrefixOf "Answer:".data (trimStr "Answer: second".data) = true := by
  decide

/-- C5 (confirmed): `handleSend` rejects a submit whose input trims to empty
or that happens while a stream is in flight, leaving the whole widget state
(messages, input, streaming flag) unchanged and performing no stream fold;
an accepted submit appends the user message and the bot placeholder
atomically — for every transport outcome the final message list is the old
list plus exactly the user message and one bot message. -/
theorem c5_submit_guard :
    (∀ (st : ChatState) (now : Nat) (o : StreamOutcome),
        trimStr st.inputValue = [] ∨ st.isStreaming = true →
        handleSend st now o = st)
    ∧ (∀ (st : ChatState) (now : Nat) (o : StreamOutcome),
        trimStr st.inputValue ≠ [] → st.isStreaming = false →
        ∃ b : Message, b.sender = "bot".data ∧
          (handleSend st now o).messages
            = st.messages ++ [⟨now, "user".data, trimStr st.inputValue, false⟩, b]) := by
  constructor
  · intro st now o h
    unfold handleSend
    rw [if_pos h]
  · intro st now o h1 h2
    cases o with
    | badStatus code =>
        exact ⟨⟨now + 1, "bot".data,
          "Sorry, I encountered an error: ".data
            ++ ("HTTP error! status: ".data ++ (Nat.repr code).data), true⟩, rfl,
          by rw [handleSend_badStatus_eq st now code h1 h2]⟩
    | noBody =>
        exact ⟨⟨now + 1, "bot".data,
          "Sorry, I encountered an error: ".data ++ "Response body is null".data, true⟩, rfl,
          by rw [handleSend_noBody_eq st now h1 h2]⟩
    | netError cs msg =>
        exact ⟨⟨now + 1, "bot".data,
          "Sorry, I encountered an error: ".data ++ msg, true⟩, rfl,
          by rw [handleSend_netError_eq st now cs msg h1 h2]⟩
    | success cs =>
        exact ⟨⟨now + 1, "bot".data, concatChunks cs, false⟩, rfl,
          by rw [handleSend_success_eq st now cs h1 h2]⟩

/-- C5 witness: a whitespace-only submit is rejected with no state change,
and an accepted submit appends the user message plus one bot message. -/
theorem c5_witness :
    handleSend ⟨[], "   ".data, false⟩ 0 (.success ["x".data]) = ⟨[], "   ".data, false⟩
      ∧ ∃ b : Message, b.sender = "bot".data ∧
          (handleSend ⟨[], "hi ".data, false⟩ 3 (.success ["x".data])).messages
            = ([] : List Message)
                ++ [⟨3, "user".data, trimStr "hi ".data, false⟩, b] :=
  ⟨c5_submit_guard.1 ⟨[], "   ".data, false⟩ 0 (.success ["x".data]) (Or.inl (by decide)),
   c5_submit_guard.2 ⟨[], "hi ".data, false⟩ 3 (.success ["x".data]) (by decide) rfl⟩

/-- C6 (confirmed): when the text has at least one non-blank line and no line
matches a recognized answer-start prefix, the parser reinterprets the whole
text as unstructured: `structured = false`, the reasoning region is empty,
and every non-blank line appears (trimmed) in the answer region, in order;
in particular `"Just a plain reply with no marker."` yields
`structured = false`, `answer = ["Just a plain reply with no marker."]`,
`reasoning = []`. -/
theorem c6_unstructured_fallback :
    (∀ s : Str, nonBlankLines s ≠ [] →
        (∀ l ∈ nonBlankLines s, findMarker answerPrefixes (trimStr l) = none) →
        parseSections s = ⟨[], (nonBlankLines s).map trimStr, false⟩)
    ∧ parseSections "Just a plain reply with no marker.".data
        = ⟨[], ["Just a plain reply with no marker.".data], false⟩ := by
  constructor
  · intro s hne hnm
    have hs : s ≠ [] := by
      intro h
      subst h
      exact hne (by decide)
    unfold parseSections
    rw [if_neg hs]
    unfold initState
    rw [foldl_no_marker (nonBlankLines s) hnm []]
    unfold sectionize
    rw [if_pos ⟨by simp, by simpa using hne⟩]
    simp
  · decide

/-- C6 witness: a concrete marker-free text run through the fallback. -/
theorem c6_witness :
    parseSections "No marker lines here".data
      = ⟨[], (nonBlankLines "No marker lines here".data).map trimStr, false⟩ :=
  c6_unstructured_fallback.1 "No marker lines here".data (by decide) (by decide)

/-- C7 (confirmed): the recognized markers are exactly the ordered literal
list `["Answer:", "Final answer:", "Partial answer:"]`; the match loop
returns the first prefix in declared order that matches the (trimmed) line,
so whenever it returns a prefix no earlier-declared prefix matches; and the
match is case-sensitive: `"answer: 42"` and `"ANSWER: 42"` match nothing
while `"Answer: 42"` matches `"Answer:"`. -/
theorem c7_marker_priority :
    answerPrefixes = ["Answer:".data, "Final answer:".data, "Partial answer:".data]
    ∧ (∀ (ps : List Str) (t p : Str), findMarker ps t = some p →
        ∃ i : Nat, ps.get? i = some p ∧ List.isPrefixOf p t = true
          ∧ ∀ j : Nat, j < i → ∀ q : Str, ps.get? j = some q →
              List.isPrefixOf q t = false)
    ∧ findMarker answerPrefixes (trimStr "answer: 42".data) = none
    ∧ findMarker answerPrefixes (trimStr "ANSWER: 42".data) = none
    ∧ findMarker answerPrefixes (trimStr "Answer: 42".data) = some "Answer:".data := by
  refine ⟨rfl, ?_, by decide, by decide, by decide⟩
  intro ps
  induction ps with
  | nil =>
      intro t p h
      simp [findMarker] at h
  | cons q qs ih =>
      intro t p h
      simp only [findMarker] at h
      by_cases hq : List.isPrefixOf q t = true
      · rw [if_pos hq] at h
        injection h with h
        subst h
        refine ⟨0, rfl, hq, ?_⟩
        intro j hj
        exact absurd hj (Nat.not_lt_zero j)
      · rw [if_neg hq] at h
        obtain ⟨i, hi, hw, hprev⟩ := ih t p h
        refine ⟨i + 1, by simpa using hi, hw, ?_⟩
        intro j hj q' hq'
        cases j with
        | zero =>
            have hqq : q = q' := by simpa using hq'
            subst hqq
            exact Bool.eq_false_iff.mpr hq
        | succ j' =>
            exact hprev j' (by omega) q' (by simpa using hq')

/-- C7 witness: `"Final answer: ok"` matches the second declared prefix and
no earlier one. -/
theorem c7_witness :
    ∃ i : Nat, answerPrefixes.get? i = some "Final answer:".data
      ∧ List.isPrefixOf "Final answer:".data "Final answer: ok".data = true
      ∧ ∀ j : Nat, j < i → ∀ q : Str, answerPrefixes.get? j = some q →
          List.isPrefixOf q "Final answer: ok".data = false :=
  c7_marker_priority.2.1 answerPrefixes "Final answer: ok".data "Final answer:".data
    (by decide)

/-- C8 (confirmed): for a failing transport outcome (bad status, missing
body, or a network read failure) `streamQuery` invokes `onError` exactly
once, as the last callback, never invokes `onComplete`, and everything
before the error is a chunk delivery; for a successful outcome it invokes
`onComplete` exactly once, as the last callback after all chunks, and never
invokes `onError`. -/
theorem c8_callback_discipline (o : StreamOutcome) :
    ((∃ code, o = .badStatus code) ∨ o = .noBody ∨ (∃ cs msg, o = .netError cs msg) →
      (streamQuery o).countP isErrorEvent = 1
        ∧ (∃ msg, (streamQuery o).getLast? = some (.error msg))
        ∧ (streamQuery o).countP isCompleteEvent = 0
        ∧ ∀ e ∈ (streamQuery o).dropLast, isChunkEvent e = true)
    ∧ (∀ cs, o = .success cs →
        (streamQuery o).countP isErrorEvent = 0
          ∧ (streamQuery o).countP isCompleteEvent = 1
          ∧ (streamQuery o).getLast? = some .complete
          ∧ (streamQuery o).dropLast = cs.map StreamEvent.chunk) := by
  constructor
  · intro h
    rcases h with ⟨code, rfl⟩ | rfl | ⟨cs, msg, rfl⟩
    · refine ⟨by simp [streamQuery, isErrorEvent], ⟨_, rfl⟩,
        by simp [streamQuery, isCompleteEvent], ?_⟩
      intro e he
      simp [streamQuery] at he
    · refine ⟨by simp [streamQuery, isErrorEvent], ⟨_, rfl⟩,
        by simp [streamQuery, isCompleteEvent], ?_⟩
      intro e he
      simp [streamQuery] at he
    · refine ⟨?_, ⟨msg, ?_⟩, ?_, ?_⟩
      · simp [streamQuery, List.countP_append, List.countP_map, isErrorEvent,
          Function.comp]
      · simp [streamQuery, List.getLast?_concat]
      · simp [streamQuery, List.countP_append, List.countP_map, isCompleteEvent,
          Function.comp]
      · intro e he
        rw [streamQuery, List.dropLast_concat] at he
        obtain ⟨c, _, rfl⟩ := List.mem_map.mp he
        rfl
  · intro cs h
    subst h
    refine ⟨?_, ?_, ?_, ?_⟩
    · simp [streamQuery, List.countP_append, List.countP_map, isErrorEvent,
        Function.comp]
    · simp [streamQuery, List.countP_append, List.countP_map, isCompleteEvent,
        Function.comp]
    · simp [streamQuery, List.getLast?_concat]
    · simp [streamQuery, List.dropLast_concat]

/-- C8 witness: the discipline at a concrete failing run and a concrete
successful run. -/
theorem c8_witness :
    ((streamQuery (.netError ["a".data] "x".data)).countP isErrorEvent = 1
      ∧ (∃ msg, (streamQuery (.netError ["a".data] "x".data)).getLast?
          = some (.error msg))
      ∧ (streamQuery (.netError ["a".data] "x".data)).countP isCompleteEvent = 0
      ∧ ∀ e ∈ (streamQuery (.netError ["a".data] "x".data)).dropLast,
          isChunkEvent e = true)
    ∧ ((streamQuery (.success ["a".data])).countP isErrorEvent = 0
      ∧ (streamQuery (.success ["a".data])).countP isCompleteEvent = 1
      ∧ (streamQuery (.success ["a".data])).getLast? = some .complete
      ∧ (streamQuery (.success ["a".data])).dropLast
          = ["a".data].map StreamEvent.chunk) :=
  ⟨(c8_callback_discipline (.netError ["a".data] "x".data)).1
      (Or.inr (Or.inr ⟨["a".data], "x".data, rfl⟩)),
   (c8_callback_discipline (.success ["a".data])).2 ["a".data] rfl⟩

/-- C9 (corrected): the parser is total and returns a well-formed result,
but a non-blank line can be lost: a marker line whose remainder after the
stripped prefix is blank performs the mode switch yet contributes no line to
either region.  The corrected conservation law: the number of reasoning
lines plus answer lines equals the number of non-blank lines that
contribute (all of them except blank-remainder marker lines); and an input
with zero non-blank lines yields empty regions with `structured = false`. -/
theorem c9_totality_conservation :
    (∀ s : Str,
        (parseSections s).thinkingLines.length + (parseSections s).answerLines.length
          = (nonBlankLines s).countP contributes)
    ∧ (∀ s : Str, nonBlankLines s = [] → parseSections s = ⟨[], [], false⟩) := by
  constructor
  · intro s
    by_cases hs : s = []
    · subst hs
      decide
    · unfold parseSections
      rw [if_neg hs]
      have hcount := foldl_region_count (nonBlankLines s) initState
      unfold sectionize
      by_cases hcond :
          ¬ ((nonBlankLines s).foldl processLine initState).foundAnswerMarker
            ∧ ((nonBlankLines s).foldl processLine initState).thinking ≠ []
      · rw [if_pos hcond]
        have hfound :
            ((nonBlankLines s).foldl processLine initState).foundAnswerMarker = false :=
          Bool.eq_false_iff.mpr hcond.1
        have hans := foldl_unfound_answer (nonBlankLines s) initState rfl hfound
        rw [hans] at hcount
        simpa [initState] using hcount
      · rw [if_neg hcond]
        simpa [initState] using hcount
  · intro s h
    by_cases hs : s = []
    · subst hs
      decide
    · unfold parseSections
      rw [if_neg hs, h]
      decide

/-- C9 witness: a whitespace-only message yields the empty well-formed
result. -/
theorem c9_witness : parseSections "  \n  ".data = ⟨[], [], false⟩ :=
  c9_totality_conservation.2 "  \n  ".data (by decide)

/-- C9 counterexample: the input `"Answer:"` has exactly one non-blank line,
yet that line appears in neither region — it is lost, contradicting the
claim that every non-blank line appears in exactly one of the two regions. -/
theorem c9_counterexample :
    (nonBlankLines "Answer:".data).length = 1
      ∧ (parseSections "Answer:".data).thinkingLines = []
      ∧ (parseSections "Answer:".data).answerLines = []
      ∧ (parseSections "Answer:".data).isStructured = true := by
  decide

/-- C10 (confirmed): the chunk and error callbacks mutate at most the last
message of the list: every message other than the last is returned
unchanged; when the last message's sender is not `'bot'` the chunk callback
changes nothing at all and the error callback only appends a fresh message
(leaving every existing message, user messages included, unchanged); and the
completion callback never touches the message list. -/
theorem c10_frame (acc errMsg : Str) (now : Nat) (ms : List Message) :
    ((∀ i : Nat, i + 1 < ms.length → (onChunkUpdate acc ms).get? i = ms.get? i)
      ∧ (∀ m, ms.getLast? = some m → m.sender ≠ "bot".data →
          onChunkUpdate acc ms = ms))
    ∧ ((∀ i : Nat, i + 1 < ms.length → (onErrorUpdate errMsg now ms).get? i = ms.get? i)
      ∧ (∀ m, ms.getLast? = some m → m.sender ≠ "bot".data →
          onErrorUpdate errMsg now ms
            = ms ++ [⟨now, "bot".data, "Error: ".data ++ errMsg, true⟩]))
    ∧ (∀ st : ChatState × Str,
        (applyEvent now st .complete).1.messages = st.1.messages) := by
  refine ⟨⟨?_, ?_⟩, ⟨?_, ?_⟩, fun st => rfl⟩
  · intro i hi
    cases hl : ms.getLast? with
    | none => simp [onChunkUpdate, hl, chunkLastStep]
    | some m =>
        simp only [onChunkUpdate, hl, chunkLastStep]
        by_cases hb : m.sender = "bot".data
        · rw [if_pos hb]
          exact get?_dropLast_concat _ ms i hi
        · rw [if_neg hb]
  · intro m hl hb
    simp only [onChunkUpdate, hl, chunkLastStep]
    rw [if_neg hb]
  · intro i hi
    cases hl : ms.getLast? with
    | none =>
        simp only [onErrorUpdate, hl, errorLastStep]
        exact List.get?_append (by omega)
    | some m =>
        simp only [onErrorUpdate, hl, errorLastStep]
        by_cases hb : m.sender = "bot".data
        · rw [if_pos hb]
          exact get?_dropLast_concat _ ms i hi
        · rw [if_neg hb]
          exact List.get?_append (by omega)
  · intro m hl hb
    simp only [onErrorUpdate, hl, errorLastStep]
    rw [if_neg hb]
  -- remaining: none case get? equality handled above

/-- C10 witness: the user message at index 0 is untouched by a chunk
callback on a two-message conversation. -/
theorem c10_witness :
    (onChunkUpdate "x".data
        [⟨0, "user".data, "hi".data, false⟩, ⟨1, "bot".data, [], false⟩]).get? 0
      = ([⟨0, "user".data, "hi".data, false⟩,
          ⟨1, "bot".data, [], false⟩] : List Message).get? 0 :=
  ((c10_frame "x".data "e".data 9
      [⟨0, "user".data, "hi".data, false⟩, ⟨1, "bot".data, [], false⟩]).1.1) 0 (by decide)

end Celervus
